import Mathlib

/-!
Shallow embedding of the analytics and prediction engine of
`src/script.js` (class `DiceAnalysisSystem`).

Modelling conventions:
* JS numbers are modelled as `ℤ` (rolls, percentages) and `ℚ` (scores,
  averages); `Math.round` is `jsRound x = ⌊x + 1/2⌋` (round half toward +∞).
* The instance field `this.games` becomes an explicit `List Game` argument.
* A round record stores only `roll1`/`roll2`; the derived fields
  (`state1`, `state2`, `trend`, `classification`) are computed at creation
  from the rolls exactly as `handleFormSubmit` does, so they are exposed
  as accessor functions of the record.  The `id`/`timestamp` fields are
  informational only and are not used by any analytics code, so they are
  omitted.
* JS functions that can throw a `TypeError` (reading a property of
  `undefined`) are modelled in `Except Unit`; `null` results are `Option`.
* The object cell `matrix[from]['UNKNOWN']`, created by `undefined++`
  when a destination state is `UNKNOWN`, holds `NaN`; this is modelled by
  the `unknownNaN` flag on a matrix row, and the all-`NaN` percentage
  object it produces is modelled by the `nan` flag on `Probs`.
-/

set_option linter.unusedVariables false
set_option linter.unnecessarySeqFocus false
set_option linter.unreachableTactic false
set_option linter.unusedTactic false

namespace Dice

/-- The five state labels returned by `getState` (src/script.js:21-27). -/
inductive GState where
  | LOW
  | MID
  | HIGH
  | EXTREME
  | UNKNOWN
deriving DecidableEq, Repr

/-- The binary classification labels returned by `getClassification`
(src/script.js:33-35). -/
inductive Classification where
  | KECIL
  | BESAR
deriving DecidableEq, Repr

/-- The three trend directions returned by `calculateTrend`
(src/script.js:38-43): `naik` (up), `turun` (down), `stabil` (stable). -/
inductive Direction where
  | naik
  | turun
  | stabil
deriving DecidableEq, Repr

/-- `getState(roll)` (src/script.js:21-27). -/
def getState (roll : ℤ) : GState :=
  if 6 ≤ roll ∧ roll ≤ 18 then .LOW
  else if 19 ≤ roll ∧ roll ≤ 31 then .MID
  else if 32 ≤ roll ∧ roll ≤ 43 then .HIGH
  else if 44 ≤ roll ∧ roll ≤ 54 then .EXTREME
  else .UNKNOWN

/-- `getClassification(roll)` (src/script.js:33-35). -/
def getClassification (roll : ℤ) : Classification :=
  if roll ≤ 31 then .KECIL else .BESAR

/-- The `{direction, diff}` value object built by `calculateTrend`. -/
structure Trend where
  direction : Direction
  diff : ℤ
deriving DecidableEq, Repr

/-- `calculateTrend(roll1, roll2)` (src/script.js:38-43). -/
def calculateTrend (roll1 roll2 : ℤ) : Trend :=
  let diff := roll2 - roll1
  if diff > 0 then ⟨.naik, diff⟩
  else if diff < 0 then ⟨.turun, diff⟩
  else ⟨.stabil, diff⟩

/-- A round record (`game` object built in `handleFormSubmit`,
src/script.js:60-69), reduced to its two rolls; the derived fields are
the accessors below. -/
structure Game where
  roll1 : ℤ
  roll2 : ℤ
deriving DecidableEq, Repr

/-- Derived field `state1 = getState(roll1)` (src/script.js:64). -/
def Game.state1 (g : Game) : GState := getState g.roll1

/-- Derived field `state2 = getState(roll2)` (src/script.js:65). -/
def Game.state2 (g : Game) : GState := getState g.roll2

/-- Derived field `trend = calculateTrend(roll1, roll2)` (src/script.js:66). -/
def Game.trend (g : Game) : Trend := calculateTrend g.roll1 g.roll2

/-- Derived field `classification = getClassification(roll2)`
(src/script.js:67). -/
def Game.classification (g : Game) : Classification := getClassification g.roll2

/-- The data-model invariant of §3 of the spec: every stored roll lies in
the validated input range `[6, 54]` (src/script.js:55 rejects the rest). -/
def ValidLog (games : List Game) : Prop :=
  ∀ g ∈ games, (6 ≤ g.roll1 ∧ g.roll1 ≤ 54) ∧ (6 ≤ g.roll2 ∧ g.roll2 ≤ 54)

instance (games : List Game) : Decidable (ValidLog games) := by
  unfold ValidLog; infer_instance

/-- `this.maxMemoryWindow` (src/script.js:8). -/
def maxMemoryWindow : ℕ := 20

/-- `getRecentGames(count)` = `this.games.slice(-count)`
(src/script.js:99-101): the last `min count games.length` rounds in
original order. -/
def getRecentGamesN (games : List Game) (count : ℕ) : List Game :=
  games.drop (games.length - count)

/-- `getRecentGames()` with the default argument `this.maxMemoryWindow`. -/
def getRecentGames (games : List Game) : List Game :=
  getRecentGamesN games maxMemoryWindow

/-- The `{upCount, downCount, stableCount}` aggregate. -/
structure TrendCounts where
  upCount : ℕ
  downCount : ℕ
  stableCount : ℕ
deriving DecidableEq, Repr

/-- The counting loop of `analyzeTrendDirection` (src/script.js:107-113):
`naik` increments `upCount`, `turun` increments `downCount`, everything
else (`stabil`) increments `stableCount`. -/
def trendCountsOf (recentGames : List Game) : TrendCounts :=
  recentGames.foldl (fun acc game =>
    match game.trend.direction with
    | .naik => ⟨acc.upCount + 1, acc.downCount, acc.stableCount⟩
    | .turun => ⟨acc.upCount, acc.downCount + 1, acc.stableCount⟩
    | .stabil => ⟨acc.upCount, acc.downCount, acc.stableCount + 1⟩) ⟨0, 0, 0⟩

/-- `analyzeTrendDirection()` (src/script.js:103-116): `null` on an empty
log, else the direction counts over the recent window. -/
def analyzeTrendDirection (games : List Game) : Option TrendCounts :=
  if games.length = 0 then none
  else some (trendCountsOf (getRecentGames games))

/-- `getTrendDominant()` (src/script.js:118-127). -/
def getTrendDominant (games : List Game) : String :=
  match analyzeTrendDirection games with
  | none => "-"
  | some trendAnalysis =>
    if trendAnalysis.upCount > trendAnalysis.downCount ∧
        trendAnalysis.upCount > trendAnalysis.stableCount then "Naik ↑"
    else if trendAnalysis.downCount > trendAnalysis.upCount ∧
        trendAnalysis.downCount > trendAnalysis.stableCount then "Turun ↓"
    else "Stabil →"

/-- Decidable equality on `Except`, for evaluating the embedded
functions on concrete inputs. -/
instance exceptDecEq {e a : Type} [DecidableEq e] [DecidableEq a] : DecidableEq (Except e a) := fun x y =>
  match x, y with
  | .ok u, .ok v =>
    if h : u = v then isTrue (by rw [h]) else isFalse (by intro hc; cases hc; exact h rfl)
  | .error u, .error v =>
    if h : u = v then isTrue (by rw [h]) else isFalse (by intro hc; cases hc; exact h rfl)
  | .ok _, .error _ => isFalse (by intro hc; cases hc)
  | .error _, .ok _ => isFalse (by intro hc; cases hc)

/-- One row of the transition matrix: the four zero-initialized cells
(src/script.js:136-141) plus `unknownNaN`, which records that the
dynamic key `'UNKNOWN'` was created on this row holding `NaN`
(`matrix[from]['UNKNOWN']++` on an `undefined` cell, src/script.js:146). -/
structure Row where
  cLOW : ℕ
  cMID : ℕ
  cHIGH : ℕ
  cEXTREME : ℕ
  unknownNaN : Bool
deriving DecidableEq, Repr

/-- The 4x4 transition matrix keyed by the four non-UNKNOWN states
(src/script.js:133-141); there is no `'UNKNOWN'` row. -/
structure TransitionMatrix where
  rLOW : Row
  rMID : Row
  rHIGH : Row
  rEXTREME : Row
deriving DecidableEq, Repr

/-- A zero-initialized row. -/
def zeroRow : Row := ⟨0, 0, 0, 0, false⟩

/-- The zero-initialized matrix (src/script.js:136-141). -/
def zeroMatrix : TransitionMatrix := ⟨zeroRow, zeroRow, zeroRow, zeroRow⟩

/-- `matrix[s]`: the row for `s`, `none` when `s` is `UNKNOWN` (the JS
object has no such key, so the lookup yields `undefined`). -/
def TransitionMatrix.rowOf (m : TransitionMatrix) (s : GState) : Option Row :=
  match s with
  | .LOW => some m.rLOW
  | .MID => some m.rMID
  | .HIGH => some m.rHIGH
  | .EXTREME => some m.rEXTREME
  | .UNKNOWN => none

/-- The numeric cell of a row for a non-UNKNOWN destination (the
`UNKNOWN` key, when present, holds `NaN`, not a count; it reads as `0`
here and is tracked by `unknownNaN`). -/
def Row.cellOf (r : Row) (s : GState) : ℕ :=
  match s with
  | .LOW => r.cLOW
  | .MID => r.cMID
  | .HIGH => r.cHIGH
  | .EXTREME => r.cEXTREME
  | .UNKNOWN => 0

/-- Convenience view of a matrix cell (0 for the absent `UNKNOWN` row). -/
def TransitionMatrix.cell (m : TransitionMatrix) (a b : GState) : ℕ :=
  match m.rowOf a with
  | none => 0
  | some r => r.cellOf b

/-- Convenience view of a row's `unknownNaN` flag (`false` for the
absent `UNKNOWN` row). -/
def TransitionMatrix.flag (m : TransitionMatrix) (a : GState) : Bool :=
  match m.rowOf a with
  | none => false
  | some r => r.unknownNaN

/-- `row[toState]++` (src/script.js:146): a non-UNKNOWN destination
increments its cell; destination `UNKNOWN` turns the `undefined` cell
into `NaN` (recorded by the flag). -/
def Row.inc (r : Row) (toState : GState) : Row :=
  match toState with
  | .LOW => { r with cLOW := r.cLOW + 1 }
  | .MID => { r with cMID := r.cMID + 1 }
  | .HIGH => { r with cHIGH := r.cHIGH + 1 }
  | .EXTREME => { r with cEXTREME := r.cEXTREME + 1 }
  | .UNKNOWN => { r with unknownNaN := true }

/-- `matrix[fromState][toState]++` (src/script.js:146).  When
`fromState` is `UNKNOWN` the row lookup yields `undefined` and the
increment throws a `TypeError`, modelled as `.error ()`. -/
def TransitionMatrix.incr (m : TransitionMatrix) (fromState toState : GState) :
    Except Unit TransitionMatrix :=
  match fromState with
  | .LOW => .ok { m with rLOW := m.rLOW.inc toState }
  | .MID => .ok { m with rMID := m.rMID.inc toState }
  | .HIGH => .ok { m with rHIGH := m.rHIGH.inc toState }
  | .EXTREME => .ok { m with rEXTREME := m.rEXTREME.inc toState }
  | .UNKNOWN => .error ()

/-- The loop of src/script.js:143-147 over the consecutive pairs
`(games[i-1], games[i])`: `fromState = games[i-1].state2`,
`toState = games[i].state1`. -/
def addTransitions : TransitionMatrix → List (Game × Game) → Except Unit TransitionMatrix
  | m, [] => .ok m
  | m, p :: rest =>
    match m.incr p.1.state2 p.2.state1 with
    | .error e => .error e
    | .ok m1 => addTransitions m1 rest

/-- `buildTransitionMatrix()` (src/script.js:130-150): `null` for fewer
than 2 rounds, otherwise the zero-initialized matrix incremented once per
consecutive pair of the entire log. -/
def buildTransitionMatrix (games : List Game) : Except Unit (Option TransitionMatrix) :=
  if games.length < 2 then .ok none
  else
    match addTransitions zeroMatrix (games.zip games.tail) with
    | .error e => .error e
    | .ok m => .ok (some m)

/-- The spec-level transition count: the number of consecutive pairs
`(games[i-1], games[i])` of the entire log with
`games[i-1].state2 = a` and `games[i].state1 = b`. -/
def pairCount (games : List Game) (a b : GState) : ℕ :=
  (games.zip games.tail).countP fun p => decide (p.1.state2 = a) && decide (p.2.state1 = b)

/-- The spec-level row total: the sum of the four cells of row `a`
(`Object.values(transitions).reduce(...)`, src/script.js:157, on a row
without a `NaN` cell). -/
def rowTotal (games : List Game) (a : GState) : ℕ :=
  pairCount games a .LOW + pairCount games a .MID +
    pairCount games a .HIGH + pairCount games a .EXTREME

/-- `total` of src/script.js:157 for a row. -/
def Row.total (r : Row) : ℕ := r.cLOW + r.cMID + r.cHIGH + r.cEXTREME

/-- `Math.round` on an exact rational: round half toward `+∞`
(`Rat.floor` is used so the definition evaluates in the kernel). -/
def jsRound (x : ℚ) : ℤ := (x + 1 / 2).floor

/-- The `probability` object of src/script.js:161-164.  `nan = true`
models the case where the row carried a `NaN` cell, so `total` is `NaN`
and every rounded percentage is `NaN` (the numeric fields are then
meaningless and read as `0` through `Probs.get`, as `NaN || 0` does). -/
structure Probs where
  pLOW : ℤ
  pMID : ℤ
  pHIGH : ℤ
  pEXTREME : ℤ
  nan : Bool
deriving DecidableEq, Repr

/-- `(probability[s] || 0)` as used at src/script.js:240-241: a `NaN`
entry (and the absent `UNKNOWN` entry) reads as `0`. -/
def Probs.get (p : Probs) (s : GState) : ℤ :=
  if p.nan then 0
  else
    match s with
    | .LOW => p.pLOW
    | .MID => p.pMID
    | .HIGH => p.pHIGH
    | .EXTREME => p.pEXTREME
    | .UNKNOWN => 0

/-- `getStateTransitionProbability(fromState)` (src/script.js:152-167).
`fromState = UNKNOWN` on a non-null matrix makes
`Object.values(undefined)` throw (`.error ()`).  A row with a `NaN`
cell has `total = NaN`, which is not `=== 0`, and every percentage
`Math.round(count / NaN * 100)` is `NaN`. -/
def getStateTransitionProbability (games : List Game) (fromState : GState) :
    Except Unit (Option Probs) :=
  match buildTransitionMatrix games with
  | .error e => .error e
  | .ok none => .ok none
  | .ok (some matrix) =>
    match matrix.rowOf fromState with
    | none => .error ()
    | some transitions =>
      if transitions.unknownNaN then .ok (some ⟨0, 0, 0, 0, true⟩)
      else if transitions.total = 0 then .ok none
      else .ok (some ⟨jsRound ((transitions.cLOW : ℚ) / transitions.total * 100),
                      jsRound ((transitions.cMID : ℚ) / transitions.total * 100),
                      jsRound ((transitions.cHIGH : ℚ) / transitions.total * 100),
                      jsRound ((transitions.cEXTREME : ℚ) / transitions.total * 100),
                      false⟩)

/-- The `{KECIL, BESAR}` frequency object (src/script.js:181). -/
structure ClassFreq where
  KECIL : ℕ
  BESAR : ℕ
deriving DecidableEq, Repr

/-- The counting loop of `getClassificationFrequency`
(src/script.js:176-179): `KECIL` counts its own tally, everything else
(`BESAR`) falls to the `else` branch. -/
def classFreqOf (recent : List Game) : ClassFreq :=
  recent.foldl (fun acc game =>
    match game.classification with
    | .KECIL => ⟨acc.KECIL + 1, acc.BESAR⟩
    | .BESAR => ⟨acc.KECIL, acc.BESAR + 1⟩) ⟨0, 0⟩

/-- `getClassificationFrequency()` (src/script.js:170-182): the zero
mapping on an empty log, else the tallies over the recent window. -/
def getClassificationFrequency (games : List Game) : ClassFreq :=
  if games.length = 0 then ⟨0, 0⟩
  else classFreqOf (getRecentGames games)

/-- The `stateCounts` object of `getStateDominance`
(src/script.js:189-194).  `unknownNaN` records that the dynamic key
`'UNKNOWN'` was created holding `NaN` (`stateCounts[game.state2]++` on
an `undefined` cell for an `UNKNOWN` state). -/
structure StateCounts where
  LOW : ℕ
  MID : ℕ
  HIGH : ℕ
  EXTREME : ℕ
  unknownNaN : Bool
deriving DecidableEq, Repr

/-- `stateCounts[s]++` for one round's `state2`. -/
def StateCounts.inc (sc : StateCounts) (s : GState) : StateCounts :=
  match s with
  | .LOW => { sc with LOW := sc.LOW + 1 }
  | .MID => { sc with MID := sc.MID + 1 }
  | .HIGH => { sc with HIGH := sc.HIGH + 1 }
  | .EXTREME => { sc with EXTREME := sc.EXTREME + 1 }
  | .UNKNOWN => { sc with unknownNaN := true }

/-- The counting loop of `getStateDominance` (src/script.js:191-193)
over a window, starting from the zero-initialized four-key object. -/
def stateCountsOf (recent : List Game) : StateCounts :=
  recent.foldl (fun acc game => acc.inc game.state2) ⟨0, 0, 0, 0, false⟩

/-- `getStateDominance()` (src/script.js:185-196): the *empty* object
`{}` on an empty log (modelled as `none`, distinct from the all-zero
four-key mapping), else the tallies of `state2` over the recent window. -/
def getStateDominance (games : List Game) : Option StateCounts :=
  if games.length = 0 then none
  else some (stateCountsOf (getRecentGames games))

/-- `getLastState()` (src/script.js:198-201): `null` on an empty log,
else the `state2` of the most recent round. -/
def getLastState (games : List Game) : Option GState :=
  games.getLast?.map fun g => g.state2

/-- `avgRoll2` of src/script.js:214: the arithmetic mean of `roll2`
over the entire log (exact rational; division by `0` only on the empty
log, which `predictNextOutcome` has already excluded). -/
def avgRoll2Of (games : List Game) : ℚ :=
  (((games.map fun g => g.roll2).sum : ℤ) : ℚ) / (games.length : ℚ)

/-- The hybrid-scoring section of `predictNextOutcome`
(src/script.js:216-257), producing `(kecilScore, besarScore)`.  Each of
the four weighted components contributes a pair that is accumulated
into the two running scores.

Notes kept from the JS source:
* `trendAnalysis` is non-null here (the log has ≥ 5 rounds), so the
  `getD` defaults are unreachable.
* With an `UNKNOWN` state in the window the dominance object carries a
  `NaN` value, so `totalStateCount` is `NaN` and both dominance ratios
  are `NaN || 0 = 0`; without it, the only degenerate case of
  `(x / total) || 0` is `0 / 0 = NaN → 0`, which rational division by
  zero (`0`) reproduces.
* The percentages read out of `stateTransitionProb` go through
  `Probs.get`, which models `(p[s] || 0)`; the further `/ 100 || 0`
  is the identity on these non-`NaN` rationals except on `0`, where it
  is also the identity. -/
def predictScores (games : List Game) (stateTransitionProb : Option Probs) : ℚ × ℚ :=
  let trendAnalysis := (analyzeTrendDirection games).getD ⟨0, 0, 0⟩
  let stateDominance := (getStateDominance games).getD ⟨0, 0, 0, 0, false⟩
  let avgRoll2 := avgRoll2Of games
  -- 1. numeric trend component (25%), src/script.js:220-226
  let trendWeight : ℚ := 0.25
  let kecil1 : ℚ :=
    if trendAnalysis.downCount > trendAnalysis.upCount then trendWeight * 0.6 else 0
  let besar1 : ℚ :=
    if trendAnalysis.downCount > trendAnalysis.upCount then 0 else trendWeight * 0.6
  -- 2. state dominance component (30%), src/script.js:228-235
  let stateWeight : ℚ := 0.30
  let totalStateCount : ℕ :=
    stateDominance.LOW + stateDominance.MID + stateDominance.HIGH + stateDominance.EXTREME
  let lowMidDominance : ℚ :=
    if stateDominance.unknownNaN then 0
    else ((stateDominance.LOW + stateDominance.MID : ℕ) : ℚ) / (totalStateCount : ℚ)
  let highExtremeDominance : ℚ :=
    if stateDominance.unknownNaN then 0
    else ((stateDominance.HIGH + stateDominance.EXTREME : ℕ) : ℚ) / (totalStateCount : ℚ)
  let kecil2 : ℚ := stateWeight * lowMidDominance
  let besar2 : ℚ := stateWeight * highExtremeDominance
  -- 3. state transition component (25%), src/script.js:237-245
  let transitionWeight : ℚ := 0.25
  let kecil3 : ℚ :=
    match stateTransitionProb with
    | none => 0
    | some p => transitionWeight * ((((p.get .LOW : ℤ) : ℚ) + ((p.get .MID : ℤ) : ℚ)) / 100)
  let besar3 : ℚ :=
    match stateTransitionProb with
    | none => 0
    | some p => transitionWeight * ((((p.get .HIGH : ℤ) : ℚ) + ((p.get .EXTREME : ℤ) : ℚ)) / 100)
  -- 4. distance from center component (20%), src/script.js:247-257
  let centerWeight : ℚ := 0.20
  let CENTER : ℚ := 30
  let distanceFromCenter : ℚ := |avgRoll2 - CENTER|
  let maxDistance : ℚ := 24
  let centerTerm : ℚ := centerWeight * (1 - distanceFromCenter / maxDistance)
  let kecil4 : ℚ := if avgRoll2 < CENTER then centerTerm else 0
  let besar4 : ℚ := if avgRoll2 < CENTER then 0 else centerTerm
  (kecil1 + kecil2 + kecil3 + kecil4, besar1 + besar2 + besar3 + besar4)

/-- The `reasoning` payload of the prediction (src/script.js:268-274).
`avgRoll2` is pre-rounded to one decimal (`Math.round(avg * 10) / 10`). -/
structure Reasoning where
  trendDirection : TrendCounts
  stateDominance : StateCounts
  lastState : GState
  stateTransitionProb : Option Probs
  avgRoll2 : ℚ
deriving DecidableEq, Repr

/-- The two result shapes of `predictNextOutcome`:
`{canPredict:false, reason}` and `{canPredict:true, KECIL, BESAR, reasoning}`. -/
inductive PredResult where
  | cannotPredict (reason : String)
  | predicted (kecil besar : ℤ) (reasoning : Reasoning)
deriving DecidableEq, Repr

/-- `predictNextOutcome()` (src/script.js:204-276).  The call
`getStateTransitionProbability(lastState)` can throw (propagated via
`Except`); `classificationFreq` (src/script.js:213) is computed but
never used, so it is omitted.  `lastState` is non-null after the length
guard, so the `getD .UNKNOWN` default is unreachable. -/
def predictNextOutcome (games : List Game) : Except Unit PredResult :=
  if games.length < 5 then
    .ok (.cannotPredict "Data belum cukup (minimal 5 game)")
  else
    match getStateTransitionProbability games ((getLastState games).getD .UNKNOWN) with
    | .error e => .error e
    | .ok stateTransitionProb =>
      let scores := predictScores games stateTransitionProb
      let totalScore := scores.1 + scores.2
      let kecilPercent := jsRound (scores.1 / totalScore * 100)
      let besarPercent := 100 - kecilPercent
      .ok (.predicted kecilPercent besarPercent
        ⟨(analyzeTrendDirection games).getD ⟨0, 0, 0⟩,
         (getStateDominance games).getD ⟨0, 0, 0, 0, false⟩,
         (getLastState games).getD .UNKNOWN,
         stateTransitionProb,
         ((jsRound (avgRoll2Of games * 10) : ℤ) : ℚ) / 10⟩)

/-! ### Derived definitions used to state the claims -/

/-- Conclusion of claim C1 on a log long enough to predict: the result is
`canPredict:true` and the KECIL/BESAR split sums to exactly 100. -/
def C1Concl (games : List Game) : Prop :=
  ∃ k b r, predictNextOutcome games = .ok (.predicted k b r) ∧ k + b = 100

/-- Conclusion of claim C2: the transition-probability call of
`predictNextOutcome` succeeds and the normalization divisor
`kecilScore + besarScore` is strictly positive. -/
def C2Concl (games : List Game) : Prop :=
  ∃ stp, getStateTransitionProbability games ((getLastState games).getD .UNKNOWN) = .ok stp
    ∧ 0 < (predictScores games stp).1 + (predictScores games stp).2

/-- Conclusion of claim C3 on a valid log of length ≥ 2: the matrix is
built and each cell counts exactly the matching consecutive pairs of the
entire log. -/
def C3Concl (games : List Game) : Prop :=
  ∃ m, buildTransitionMatrix games = .ok (some m)
    ∧ ∀ a b, a ≠ GState.UNKNOWN → b ≠ GState.UNKNOWN → m.cell a b = pairCount games a b

/-- Conclusion of claim C4 on a valid log of length ≥ 2 and a
non-UNKNOWN source state: `null` exactly on a zero row total, otherwise
each destination cell is the independently rounded percentage. -/
def C4Concl (games : List Game) (fromState : GState) : Prop :=
  (rowTotal games fromState = 0 → getStateTransitionProbability games fromState = .ok none)
  ∧ (rowTotal games fromState ≠ 0 →
      ∃ p, getStateTransitionProbability games fromState = .ok (some p)
        ∧ ∀ b, b ≠ GState.UNKNOWN →
            p.get b = jsRound ((pairCount games fromState b : ℚ) / (rowTotal games fromState : ℚ) * 100))

/-- Conclusion of claim C5 for a log `g0 :: g1 :: t` of length 21: the
window aggregates drop the oldest round `g0`, while the transition
matrix still counts the pair `(g0, g1)` and the average still includes
`g0.roll2`. -/
def C5Concl (g0 g1 : Game) (t : List Game) : Prop :=
  (∀ l : List Game, (getRecentGames l).length = min maxMemoryWindow l.length)
  ∧ getRecentGames (g0 :: g1 :: t) = g1 :: t
  ∧ analyzeTrendDirection (g0 :: g1 :: t) = some (trendCountsOf (g1 :: t))
  ∧ getClassificationFrequency (g0 :: g1 :: t) = classFreqOf (g1 :: t)
  ∧ getStateDominance (g0 :: g1 :: t) = some (stateCountsOf (g1 :: t))
  ∧ avgRoll2Of (g0 :: g1 :: t) =
      ((g0.roll2 : ℚ) + ((((g1 :: t).map fun x => x.roll2).sum : ℤ) : ℚ)) / 21
  ∧ (ValidLog (g0 :: g1 :: t) →
      ∃ m m', buildTransitionMatrix (g0 :: g1 :: t) = .ok (some m)
        ∧ buildTransitionMatrix (g1 :: t) = .ok (some m')
        ∧ ∀ a b, a ≠ GState.UNKNOWN → b ≠ GState.UNKNOWN →
            m.cell a b = (if g0.state2 = a ∧ g1.state1 = b then 1 else 0) + m'.cell a b)

/-- Conclusion of claim C6 on a non-empty log: the dominant-trend label
characterized by strict comparison of the window's direction counts. -/
def C6Concl (games : List Game) : Prop :=
  (getTrendDominant games = "Naik ↑" ↔
    (trendCountsOf (getRecentGames games)).downCount < (trendCountsOf (getRecentGames games)).upCount
    ∧ (trendCountsOf (getRecentGames games)).stableCount < (trendCountsOf (getRecentGames games)).upCount)
  ∧ (getTrendDominant games = "Turun ↓" ↔
    (trendCountsOf (getRecentGames games)).upCount < (trendCountsOf (getRecentGames games)).downCount
    ∧ (trendCountsOf (getRecentGames games)).stableCount < (trendCountsOf (getRecentGames games)).downCount)
  ∧ (getTrendDominant games = "Stabil →" ↔
    ¬((trendCountsOf (getRecentGames games)).downCount < (trendCountsOf (getRecentGames games)).upCount
      ∧ (trendCountsOf (getRecentGames games)).stableCount < (trendCountsOf (getRecentGames games)).upCount)
    ∧ ¬((trendCountsOf (getRecentGames games)).upCount < (trendCountsOf (getRecentGames games)).downCount
      ∧ (trendCountsOf (getRecentGames games)).stableCount < (trendCountsOf (getRecentGames games)).downCount))

/-- The 49 integers of the valid roll range `[6, 54]`. -/
def c8Rolls : List ℤ := (List.range 49).map fun k => (6 : ℤ) + k

/-- The rolls of `[6, 54]` on which the binary KECIL/BESAR split
disagrees with the LOW-or-MID versus HIGH-or-EXTREME state grouping. -/
def c8SplitsDisagree : List ℤ :=
  c8Rolls.filter fun r =>
    decide (getClassification r = .KECIL) != decide (getState r = .LOW ∨ getState r = .MID)

/-- Conclusion of the amended claim C10: `buildTransitionMatrix` throws
exactly when some round other than the last has an `UNKNOWN` `state2`,
and `getStateTransitionProbability` with an `UNKNOWN` source throws
whenever the matrix is non-null. -/
def C10Concl (games : List Game) : Prop :=
  (buildTransitionMatrix games = .error () ↔
    2 ≤ games.length ∧ ∃ p ∈ games.zip games.tail, p.1.state2 = GState.UNKNOWN)
  ∧ ∀ m, buildTransitionMatrix games = .ok (some m) →
      getStateTransitionProbability games GState.UNKNOWN = .error ()

/-! ### Helper lemmas -/

lemma getState_ne_unknown {r : ℤ} (h6 : 6 ≤ r) (h54 : r ≤ 54) : getState r ≠ .UNKNOWN := by
  unfold getState
  split_ifs <;> simp_all <;> omega

lemma validLog_state1 {games : List Game} (hv : ValidLog games) {g : Game} (hg : g ∈ games) :
    g.state1 ≠ .UNKNOWN :=
  getState_ne_unknown (hv g hg).1.1 (hv g hg).1.2

lemma validLog_state2 {games : List Game} (hv : ValidLog games) {g : Game} (hg : g ∈ games) :
    g.state2 ≠ .UNKNOWN :=
  getState_ne_unknown (hv g hg).2.1 (hv g hg).2.2

lemma jsRound_eq (x : ℚ) : jsRound x = ⌊x + 1 / 2⌋ := by
  unfold jsRound
  rw [Rat.floor_def']
  exact Rat.floor_def.symm

lemma jsRound_eval (x : ℚ) (n : ℤ) (d : ℕ) (h : x + 1 / 2 = (n : ℚ) / (d : ℚ)) :
    jsRound x = n / (d : ℤ) := by
  rw [jsRound_eq, h, Rat.floor_intCast_div_natCast]

lemma jsRound_nonneg {x : ℚ} (h : 0 ≤ x) : 0 ≤ jsRound x := by
  rw [jsRound_eq, Int.le_floor]
  push_cast
  linarith

lemma incr_error_iff (m : TransitionMatrix) (a b : GState) :
    m.incr a b = .error () ↔ a = .UNKNOWN := by
  cases a <;> simp [TransitionMatrix.incr]

lemma incr_ok (m : TransitionMatrix) (a b : GState) (ha : a ≠ .UNKNOWN) :
    ∃ m1, m.incr a b = .ok m1
      ∧ (∀ a' b', a' ≠ .UNKNOWN → b' ≠ .UNKNOWN →
          m1.cell a' b' = m.cell a' b' + (if a = a' ∧ b = b' then 1 else 0))
      ∧ (b ≠ .UNKNOWN → ∀ a', m1.flag a' = m.flag a') := by
  cases a with
  | UNKNOWN => exact absurd rfl ha
  | LOW =>
    refine ⟨_, rfl, ?_, ?_⟩
    · intro a' b' ha' hb'
      cases a' <;> cases b' <;> cases b <;>
        simp_all [TransitionMatrix.cell, TransitionMatrix.rowOf, Row.cellOf, Row.inc]
    · intro hb a'
      cases a' <;> cases b <;>
        simp_all [TransitionMatrix.flag, TransitionMatrix.rowOf, Row.inc]
  | MID =>
    refine ⟨_, rfl, ?_, ?_⟩
    · intro a' b' ha' hb'
      cases a' <;> cases b' <;> cases b <;>
        simp_all [TransitionMatrix.cell, TransitionMatrix.rowOf, Row.cellOf, Row.inc]
    · intro hb a'
      cases a' <;> cases b <;>
        simp_all [TransitionMatrix.flag, TransitionMatrix.rowOf, Row.inc]
  | HIGH =>
    refine ⟨_, rfl, ?_, ?_⟩
    · intro a' b' ha' hb'
      cases a' <;> cases b' <;> cases b <;>
        simp_all [TransitionMatrix.cell, TransitionMatrix.rowOf, Row.cellOf, Row.inc]
    · intro hb a'
      cases a' <;> cases b <;>
        simp_all [TransitionMatrix.flag, TransitionMatrix.rowOf, Row.inc]
  | EXTREME =>
    refine ⟨_, rfl, ?_, ?_⟩
    · intro a' b' ha' hb'
      cases a' <;> cases b' <;> cases b <;>
        simp_all [TransitionMatrix.cell, TransitionMatrix.rowOf, Row.cellOf, Row.inc]
    · intro hb a'
      cases a' <;> cases b <;>
        simp_all [TransitionMatrix.flag, TransitionMatrix.rowOf, Row.inc]

lemma addTransitions_cons (m : TransitionMatrix) (p : Game × Game) (rest : List (Game × Game)) :
    addTransitions m (p :: rest) =
      match m.incr p.1.state2 p.2.state1 with
      | .error e => .error e
      | .ok m1 => addTransitions m1 rest := rfl

lemma addTransitions_ok (pairs : List (Game × Game)) :
    ∀ m : TransitionMatrix, (∀ p ∈ pairs, p.1.state2 ≠ GState.UNKNOWN) →
      ∃ m', addTransitions m pairs = .ok m'
        ∧ (∀ a b, a ≠ GState.UNKNOWN → b ≠ GState.UNKNOWN →
            m'.cell a b = m.cell a b +
              pairs.countP (fun p => decide (p.1.state2 = a) && decide (p.2.state1 = b)))
        ∧ ((∀ p ∈ pairs, p.2.state1 ≠ GState.UNKNOWN) → ∀ a, m'.flag a = m.flag a) := by
  induction pairs with
  | nil =>
    intro m _
    exact ⟨m, rfl, fun a b _ _ => by simp [List.countP_nil], fun _ a => rfl⟩
  | cons p rest ih =>
    intro m hfrom
    have hp1 : p.1.state2 ≠ .UNKNOWN := hfrom p (List.mem_cons_self p rest)
    obtain ⟨m1, hm1, hcell1, hflag1⟩ := incr_ok m p.1.state2 p.2.state1 hp1
    obtain ⟨m', hrun, hcell, hflag⟩ :=
      ih m1 (fun q hq => hfrom q (List.mem_cons_of_mem p hq))
    refine ⟨m', ?_, ?_, ?_⟩
    · rw [addTransitions_cons, hm1]
      exact hrun
    · intro a b ha hb
      rw [hcell a b ha hb, hcell1 a b ha hb, List.countP_cons]
      simp only [Bool.and_eq_true, decide_eq_true_eq]
      split_ifs <;> omega
    · intro hto a
      have hp2 : p.2.state1 ≠ .UNKNOWN := hto p (List.mem_cons_self p rest)
      rw [hflag (fun q hq => hto q (List.mem_cons_of_mem p hq)) a, hflag1 hp2 a]

lemma addTransitions_error_iff (pairs : List (Game × Game)) :
    ∀ m : TransitionMatrix,
      (addTransitions m pairs = .error () ↔ ∃ p ∈ pairs, p.1.state2 = GState.UNKNOWN) := by
  induction pairs with
  | nil => intro m; simp [addTransitions]
  | cons p rest ih =>
    intro m
    by_cases hp : p.1.state2 = .UNKNOWN
    · constructor
      · intro _
        exact ⟨p, List.mem_cons_self p rest, hp⟩
      · intro _
        rw [addTransitions_cons, (incr_error_iff m p.1.state2 p.2.state1).mpr hp]
    · obtain ⟨m1, hm1, -, -⟩ := incr_ok m p.1.state2 p.2.state1 hp
      have hstep : addTransitions m (p :: rest) = addTransitions m1 rest := by
        rw [addTransitions_cons, hm1]
      rw [hstep, ih m1]
      constructor
      · intro ⟨q, hq, hqs⟩
        exact ⟨q, List.mem_cons_of_mem p hq, hqs⟩
      · intro ⟨q, hq, hqs⟩
        rcases List.mem_cons.mp hq with hq' | hq'
        · exact absurd (hq' ▸ hqs) hp
        · exact ⟨q, hq', hqs⟩

lemma zeroMatrix_cell (a b : GState) : zeroMatrix.cell a b = 0 := by
  cases a <;> cases b <;> rfl

lemma zeroMatrix_flag (a : GState) : zeroMatrix.flag a = false := by
  cases a <;> rfl

lemma build_short {games : List Game} (h : games.length < 2) :
    buildTransitionMatrix games = .ok none := by
  unfold buildTransitionMatrix
  rw [if_pos h]

lemma build_ok_of_valid {games : List Game} (h2 : 2 ≤ games.length) (hv : ValidLog games) :
    ∃ m, buildTransitionMatrix games = .ok (some m)
      ∧ (∀ a b, a ≠ GState.UNKNOWN → b ≠ GState.UNKNOWN → m.cell a b = pairCount games a b)
      ∧ (∀ a, m.flag a = false) := by
  have hfrom : ∀ p ∈ games.zip games.tail, p.1.state2 ≠ GState.UNKNOWN := fun p hp =>
    validLog_state2 hv (List.of_mem_zip hp).1
  have hto : ∀ p ∈ games.zip games.tail, p.2.state1 ≠ GState.UNKNOWN := fun p hp =>
    validLog_state1 hv (List.mem_of_mem_tail (List.of_mem_zip hp).2)
  obtain ⟨m, hrun, hcell, hflag⟩ := addTransitions_ok (games.zip games.tail) zeroMatrix hfrom
  refine ⟨m, ?_, ?_, ?_⟩
  · unfold buildTransitionMatrix
    rw [if_neg (by omega), hrun]
  · intro a b ha hb
    rw [hcell a b ha hb, zeroMatrix_cell, Nat.zero_add]
    rfl
  · intro a
    rw [hflag hto a, zeroMatrix_flag]

lemma build_error_iff (games : List Game) :
    buildTransitionMatrix games = .error () ↔
      2 ≤ games.length ∧ ∃ p ∈ games.zip games.tail, p.1.state2 = GState.UNKNOWN := by
  unfold buildTransitionMatrix
  by_cases h : games.length < 2
  · rw [if_pos h]
    constructor
    · intro hc
      exact absurd hc (by simp)
    · intro ⟨h2, _⟩
      omega
  · rw [if_neg h]
    cases haddr : addTransitions zeroMatrix (games.zip games.tail) with
    | error e =>
      simp only [haddr]
      constructor
      · intro _
        exact ⟨by omega, (addTransitions_error_iff _ zeroMatrix).mp haddr⟩
      · intro _
        trivial
    | ok m =>
      simp only [haddr]
      constructor
      · intro hc
        exact absurd hc (by simp)
      · intro ⟨_, hex⟩
        have := (addTransitions_error_iff _ zeroMatrix).mpr hex
        rw [haddr] at this
        exact absurd this (by simp)

lemma gstp_short {games : List Game} (h : games.length < 2) (s : GState) :
    getStateTransitionProbability games s = .ok none := by
  unfold getStateTransitionProbability
  rw [build_short h]

lemma gstp_eq_of_build {games : List Game} {s : GState} {m : TransitionMatrix} {r : Row}
    (hb : buildTransitionMatrix games = .ok (some m)) (hr : m.rowOf s = some r) :
    getStateTransitionProbability games s =
      (if r.unknownNaN then .ok (some ⟨0, 0, 0, 0, true⟩)
       else if r.total = 0 then .ok none
       else .ok (some ⟨jsRound ((r.cLOW : ℚ) / (r.total : ℚ) * 100),
                       jsRound ((r.cMID : ℚ) / (r.total : ℚ) * 100),
                       jsRound ((r.cHIGH : ℚ) / (r.total : ℚ) * 100),
                       jsRound ((r.cEXTREME : ℚ) / (r.total : ℚ) * 100),
                       false⟩)) := by
  simp only [getStateTransitionProbability, hb, hr]

lemma gstp_unknown_error {games : List Game} {m : TransitionMatrix}
    (hb : buildTransitionMatrix games = .ok (some m)) :
    getStateTransitionProbability games GState.UNKNOWN = .error () := by
  simp only [getStateTransitionProbability, hb, TransitionMatrix.rowOf]

lemma gstp_of_valid {games : List Game} (h2 : 2 ≤ games.length) (hv : ValidLog games)
    {s : GState} (hs : s ≠ GState.UNKNOWN) :
    (rowTotal games s = 0 → getStateTransitionProbability games s = .ok none)
    ∧ (rowTotal games s ≠ 0 → getStateTransitionProbability games s =
        .ok (some ⟨jsRound ((pairCount games s .LOW : ℚ) / (rowTotal games s : ℚ) * 100),
                   jsRound ((pairCount games s .MID : ℚ) / (rowTotal games s : ℚ) * 100),
                   jsRound ((pairCount games s .HIGH : ℚ) / (rowTotal games s : ℚ) * 100),
                   jsRound ((pairCount games s .EXTREME : ℚ) / (rowTotal games s : ℚ) * 100),
                   false⟩)) := by
  obtain ⟨m, hb, hcell, hflag⟩ := build_ok_of_valid h2 hv
  cases s with
  | UNKNOWN => exact absurd rfl hs
  | LOW =>
    have hgl : m.rLOW.cLOW = pairCount games GState.LOW GState.LOW :=
      hcell GState.LOW GState.LOW (by decide) (by decide)
    have hgm : m.rLOW.cMID = pairCount games GState.LOW GState.MID :=
      hcell GState.LOW GState.MID (by decide) (by decide)
    have hgh : m.rLOW.cHIGH = pairCount games GState.LOW GState.HIGH :=
      hcell GState.LOW GState.HIGH (by decide) (by decide)
    have hge : m.rLOW.cEXTREME = pairCount games GState.LOW GState.EXTREME :=
      hcell GState.LOW GState.EXTREME (by decide) (by decide)
    have hnan : m.rLOW.unknownNaN = false := hflag GState.LOW
    have htot : m.rLOW.total = rowTotal games GState.LOW := by
      unfold Row.total rowTotal
      rw [hgl, hgm, hgh, hge]
    rw [gstp_eq_of_build hb (show m.rowOf GState.LOW = some m.rLOW from rfl), hnan, htot, hgl, hgm, hgh, hge]
    constructor
    · intro h0
      rw [if_neg (by simp), if_pos h0]
    · intro h0
      rw [if_neg (by simp), if_neg h0]
  | MID =>
    have hgl : m.rMID.cLOW = pairCount games GState.MID GState.LOW :=
      hcell GState.MID GState.LOW (by decide) (by decide)
    have hgm : m.rMID.cMID = pairCount games GState.MID GState.MID :=
      hcell GState.MID GState.MID (by decide) (by decide)
    have hgh : m.rMID.cHIGH = pairCount games GState.MID GState.HIGH :=
      hcell GState.MID GState.HIGH (by decide) (by decide)
    have hge : m.rMID.cEXTREME = pairCount games GState.MID GState.EXTREME :=
      hcell GState.MID GState.EXTREME (by decide) (by decide)
    have hnan : m.rMID.unknownNaN = false := hflag GState.MID
    have htot : m.rMID.total = rowTotal games GState.MID := by
      unfold Row.total rowTotal
      rw [hgl, hgm, hgh, hge]
    rw [gstp_eq_of_build hb (show m.rowOf GState.MID = some m.rMID from rfl), hnan, htot, hgl, hgm, hgh, hge]
    constructor
    · intro h0
      rw [if_neg (by simp), if_pos h0]
    · intro h0
      rw [if_neg (by simp), if_neg h0]
  | HIGH =>
    have hgl : m.rHIGH.cLOW = pairCount games GState.HIGH GState.LOW :=
      hcell GState.HIGH GState.LOW (by decide) (by decide)
    have hgm : m.rHIGH.cMID = pairCount games GState.HIGH GState.MID :=
      hcell GState.HIGH GState.MID (by decide) (by decide)
    have hgh : m.rHIGH.cHIGH = pairCount games GState.HIGH GState.HIGH :=
      hcell GState.HIGH GState.HIGH (by decide) (by decide)
    have hge : m.rHIGH.cEXTREME = pairCount games GState.HIGH GState.EXTREME :=
      hcell GState.HIGH GState.EXTREME (by decide) (by decide)
    have hnan : m.rHIGH.unknownNaN = false := hflag GState.HIGH
    have htot : m.rHIGH.total = rowTotal games GState.HIGH := by
      unfold Row.total rowTotal
      rw [hgl, hgm, hgh, hge]
    rw [gstp_eq_of_build hb (show m.rowOf GState.HIGH = some m.rHIGH from rfl), hnan, htot, hgl, hgm, hgh, hge]
    constructor
    · intro h0
      rw [if_neg (by simp), if_pos h0]
    · intro h0
      rw [if_neg (by simp), if_neg h0]
  | EXTREME =>
    have hgl : m.rEXTREME.cLOW = pairCount games GState.EXTREME GState.LOW :=
      hcell GState.EXTREME GState.LOW (by decide) (by decide)
    have hgm : m.rEXTREME.cMID = pairCount games GState.EXTREME GState.MID :=
      hcell GState.EXTREME GState.MID (by decide) (by decide)
    have hgh : m.rEXTREME.cHIGH = pairCount games GState.EXTREME GState.HIGH :=
      hcell GState.EXTREME GState.HIGH (by decide) (by decide)
    have hge : m.rEXTREME.cEXTREME = pairCount games GState.EXTREME GState.EXTREME :=
      hcell GState.EXTREME GState.EXTREME (by decide) (by decide)
    have hnan : m.rEXTREME.unknownNaN = false := hflag GState.EXTREME
    have htot : m.rEXTREME.total = rowTotal games GState.EXTREME := by
      unfold Row.total rowTotal
      rw [hgl, hgm, hgh, hge]
    rw [gstp_eq_of_build hb (show m.rowOf GState.EXTREME = some m.rEXTREME from rfl), hnan, htot, hgl, hgm, hgh, hge]
    constructor
    · intro h0
      rw [if_neg (by simp), if_pos h0]
    · intro h0
      rw [if_neg (by simp), if_neg h0]

lemma gstp_ok_of_valid {games : List Game} (hv : ValidLog games)
    {s : GState} (hs : s ≠ GState.UNKNOWN) :
    ∃ o, getStateTransitionProbability games s = .ok o := by
  by_cases h2 : games.length < 2
  · exact ⟨none, gstp_short h2 s⟩
  · by_cases ht : rowTotal games s = 0
    · exact ⟨none, (gstp_of_valid (by omega) hv hs).1 ht⟩
    · exact ⟨_, (gstp_of_valid (by omega) hv hs).2 ht⟩

lemma gstp_get_nonneg {games : List Game} {s : GState} {p : Probs}
    (h : getStateTransitionProbability games s = .ok (some p)) (b : GState) :
    0 ≤ p.get b := by
  cases hb : buildTransitionMatrix games with
  | error e =>
    have heq : getStateTransitionProbability games s = .error e := by
      simp only [getStateTransitionProbability, hb]
    rw [heq] at h
    exact absurd h (by simp)
  | ok o =>
    cases o with
    | none =>
      have heq : getStateTransitionProbability games s = .ok none := by
        simp only [getStateTransitionProbability, hb]
      rw [heq] at h
      exact absurd h (by simp)
    | some m =>
      cases hr : m.rowOf s with
      | none =>
        have heq : getStateTransitionProbability games s = .error () := by
          simp only [getStateTransitionProbability, hb, hr]
        rw [heq] at h
        exact absurd h (by simp)
      | some r =>
        rw [gstp_eq_of_build hb hr] at h
        split_ifs at h with h1 h2
        · simp only [Except.ok.injEq, Option.some.injEq] at h
          subst h
          simp [Probs.get]
        · exact absurd h (by simp)
        · simp only [Except.ok.injEq, Option.some.injEq] at h
          subst h
          have hx : ∀ c t : ℕ, (0 : ℚ) ≤ (c : ℚ) / (t : ℚ) * 100 := fun c t =>
            mul_nonneg (div_nonneg (Nat.cast_nonneg c) (Nat.cast_nonneg t)) (by norm_num)
          cases b <;> simp [Probs.get] <;> exact jsRound_nonneg (hx _ _)

lemma getLastState_getD_ne_unknown {games : List Game} (hv : ValidLog games)
    (hne : games ≠ []) : (getLastState games).getD .UNKNOWN ≠ .UNKNOWN := by
  unfold getLastState
  rw [List.getLast?_eq_getLast games hne]
  exact validLog_state2 hv (List.getLast_mem hne)

/-! ### The claims -/

/-- Claim C7: for every integer `r` in `[6,54]`, `classifyState(r)`
(`getState`) returns exactly one of LOW/MID/HIGH/EXTREME according to
the contiguous non-overlapping bands LOW=[6,18], MID=[19,31],
HIGH=[32,43], EXTREME=[44,54], which partition `[6,54]`; every integer
outside `[6,54]` yields UNKNOWN. -/
theorem c7_getState_bands (r : ℤ) :
    (6 ≤ r → r ≤ 54 →
      ((getState r = .LOW ↔ r ≤ 18)
       ∧ (getState r = .MID ↔ 19 ≤ r ∧ r ≤ 31)
       ∧ (getState r = .HIGH ↔ 32 ≤ r ∧ r ≤ 43)
       ∧ (getState r = .EXTREME ↔ 44 ≤ r)
       ∧ getState r ≠ .UNKNOWN))
    ∧ (¬(6 ≤ r ∧ r ≤ 54) → getState r = .UNKNOWN) := by
  constructor
  · intro h6 h54
    unfold getState
    split_ifs with h1 h2 h3 h4 <;> refine ⟨?_, ?_, ?_, ?_, ?_⟩ <;> simp <;> omega
  · intro h
    unfold getState
    split_ifs with h1 h2 h3 h4 <;> first | rfl | (exfalso; omega)

/-- Witness for C7: the boundary-critical values 18/19, 31/32, 43/44
and an out-of-range value, obtained from `c7_getState_bands`. -/
theorem c7_witness :
    getState 18 = .LOW ∧ getState 19 = .MID ∧ getState 31 = .MID ∧ getState 32 = .HIGH
    ∧ getState 43 = .HIGH ∧ getState 44 = .EXTREME ∧ getState 55 = .UNKNOWN :=
  ⟨((c7_getState_bands 18).1 (by decide) (by decide)).1.mpr (by decide),
   ((c7_getState_bands 19).1 (by decide) (by decide)).2.1.mpr (by decide),
   ((c7_getState_bands 31).1 (by decide) (by decide)).2.1.mpr (by decide),
   ((c7_getState_bands 32).1 (by decide) (by decide)).2.2.1.mpr (by decide),
   ((c7_getState_bands 43).1 (by decide) (by decide)).2.2.1.mpr (by decide),
   ((c7_getState_bands 44).1 (by decide) (by decide)).2.2.2.1.mpr (by decide),
   (c7_getState_bands 55).2 (by decide)⟩

/-- Counterexample to claim C8: the claim asserts that for some integer
roll in `[6,54]` the binary KECIL/BESAR split disagrees with the
LOW-or-MID versus HIGH-or-EXTREME grouping of `classifyState`.  In fact
the two splits coincide on all 49 rolls of `[6,54]` (both change at
31/32): the list of disagreement points is empty. -/
theorem c8_counterexample : c8SplitsDisagree = [] := by decide

/-- Amended claim C8: `classifyBinary` returns KECIL iff `roll ≤ 31`
and BESAR otherwise (so `classifyBinary(31)=KECIL`,
`classifyBinary(32)=BESAR`); BESAR's threshold 32 equals HIGH's lower
boundary, so on `[6,54]` the binary split is identical to the
LOW-or-MID versus HIGH-or-EXTREME grouping. -/
theorem c8_amended (r : ℤ) :
    (getClassification r = .KECIL ↔ r ≤ 31)
    ∧ (getClassification r = .BESAR ↔ 32 ≤ r)
    ∧ (6 ≤ r → r ≤ 54 →
        ((getClassification r = .KECIL ↔ (getState r = .LOW ∨ getState r = .MID))
         ∧ (getClassification r = .BESAR ↔ (getState r = .HIGH ∨ getState r = .EXTREME)))) := by
  refine ⟨?_, ?_, ?_⟩
  · unfold getClassification
    split_ifs with h <;> simp_all <;> omega
  · unfold getClassification
    split_ifs with h <;> simp_all <;> omega
  · intro h6 h54
    constructor <;> unfold getClassification getState <;> split_ifs <;> simp_all <;> omega

/-- Witness for C8 (amended): the exact boundary 31/32 and the
coincidence of the two splits at 32, from `c8_amended`. -/
theorem c8_witness :
    getClassification 31 = .KECIL ∧ getClassification 32 = .BESAR
    ∧ (getClassification 32 = .BESAR ↔ (getState 32 = .HIGH ∨ getState 32 = .EXTREME)) :=
  ⟨(c8_amended 31).1.mpr (by decide), (c8_amended 32).2.1.mpr (by decide),
   ((c8_amended 32).2.2 (by decide) (by decide)).2⟩

/-- Claim C9: on the empty log `getClassificationFrequency` returns the
zero-filled mapping `{KECIL:0, BESAR:0}` (not an error), whereas
`getStateDominance` returns the empty mapping `{}` (modelled `none`,
distinct from the all-zero four-key mapping) and `getLastState` returns
`null`. -/
theorem c9_empty_log :
    getClassificationFrequency [] = ⟨0, 0⟩
    ∧ getStateDominance [] = none
    ∧ getStateDominance [] ≠ some ⟨0, 0, 0, 0, false⟩
    ∧ getLastState [] = none :=
  ⟨rfl, rfl, by decide, rfl⟩

/-- Claim C6: for every non-empty log the dominant trend is `Naik` (up)
exactly when `upCount` strictly exceeds both other counts, `Turun`
(down) exactly when `downCount` strictly exceeds both other counts, and
`Stabil` in every other case — in particular on every tie. -/
theorem c6_trendDominant (games : List Game) (hne : games ≠ []) : C6Concl games := by
  have hlen : ¬ games.length = 0 := fun h => hne (List.length_eq_zero.mp h)
  unfold C6Concl
  have hdom : getTrendDominant games =
      (if (trendCountsOf (getRecentGames games)).upCount > (trendCountsOf (getRecentGames games)).downCount ∧
          (trendCountsOf (getRecentGames games)).upCount > (trendCountsOf (getRecentGames games)).stableCount
       then "Naik ↑"
       else if (trendCountsOf (getRecentGames games)).downCount > (trendCountsOf (getRecentGames games)).upCount ∧
          (trendCountsOf (getRecentGames games)).downCount > (trendCountsOf (getRecentGames games)).stableCount
       then "Turun ↓"
       else "Stabil →") := by
    simp only [getTrendDominant, analyzeTrendDirection, if_neg hlen]
  rw [hdom]
  split_ifs with h1 h2
  · exact ⟨iff_of_true rfl ⟨h1.1, h1.2⟩, iff_of_false (by decide) (by omega),
      iff_of_false (by decide) (by omega)⟩
  · exact ⟨iff_of_false (by decide) (by omega), iff_of_true rfl ⟨h2.1, h2.2⟩,
      iff_of_false (by decide) (by omega)⟩
  · exact ⟨iff_of_false (by decide) (by omega), iff_of_false (by decide) (by omega),
      iff_of_true rfl ⟨h1, h2⟩⟩

/-- Witness for C6: a one-round rising log is reported `Naik ↑`, via
`c6_trendDominant`. -/
theorem c6_witness : ([⟨10, 20⟩] : List Game) ≠ [] ∧ C6Concl [⟨10, 20⟩] :=
  ⟨by decide, c6_trendDominant [⟨10, 20⟩] (by decide)⟩

/-- Claim C3: `buildTransitionMatrix` returns `null` for every log of
fewer than 2 rounds; for every (valid) log of at least 2 rounds it
returns the 4x4 zero-initialized matrix whose cell `[a][b]` counts
exactly the consecutive pairs `(i-1, i)` of the entire log with
`round(i-1).state2 = a` and `round(i).state1 = b`. -/
theorem c3_buildTransitionMatrix (games : List Game) :
    (games.length < 2 → buildTransitionMatrix games = .ok none)
    ∧ (2 ≤ games.length → ValidLog games → C3Concl games) := by
  constructor
  · exact build_short
  · intro h2 hv
    obtain ⟨m, hb, hcell, -⟩ := build_ok_of_valid h2 hv
    exact ⟨m, hb, hcell⟩

/-- Witness for C3: the spec's own example (`state2` sequence
[LOW,HIGH,HIGH], `state1` sequence [LOW,MID,HIGH]), via
`c3_buildTransitionMatrix`. -/
theorem c3_witness :
    2 ≤ ([⟨10, 12⟩, ⟨20, 35⟩, ⟨33, 40⟩] : List Game).length
    ∧ ValidLog [⟨10, 12⟩, ⟨20, 35⟩, ⟨33, 40⟩]
    ∧ C3Concl [⟨10, 12⟩, ⟨20, 35⟩, ⟨33, 40⟩] :=
  ⟨by decide, by decide, (c3_buildTransitionMatrix _).2 (by decide) (by decide)⟩

/-- Counterexample to claim C10: the claim asserts that *any* log of at
least 2 rounds containing a round with an UNKNOWN state makes the
matrix operations fail.  The log `[(10,10), (10,100)]` has a round with
`state2 = UNKNOWN` (roll 100), yet `buildTransitionMatrix` succeeds —
the last round's `state2` is never used as a transition source — and
`getStateTransitionProbability(LOW)` returns a normal percentage row. -/
theorem c10_counterexample :
    (Game.mk 10 100).state2 = GState.UNKNOWN
    ∧ buildTransitionMatrix [⟨10, 10⟩, ⟨10, 100⟩] =
        .ok (some ⟨⟨1, 0, 0, 0, false⟩, zeroRow, zeroRow, zeroRow⟩)
    ∧ getStateTransitionProbability [⟨10, 10⟩, ⟨10, 100⟩] GState.LOW =
        .ok (some ⟨100, 0, 0, 0, false⟩) := by
  refine ⟨rfl, rfl, ?_⟩
  have hb : buildTransitionMatrix [⟨10, 10⟩, ⟨10, 100⟩] =
      .ok (some ⟨⟨1, 0, 0, 0, false⟩, zeroRow, zeroRow, zeroRow⟩) := rfl
  have hr : TransitionMatrix.rowOf ⟨⟨1, 0, 0, 0, false⟩, zeroRow, zeroRow, zeroRow⟩ GState.LOW
      = some ⟨1, 0, 0, 0, false⟩ := rfl
  rw [gstp_eq_of_build hb hr]
  have h100 : jsRound (100 : ℚ) = 100 := by
    rw [jsRound_eval _ 201 2 (by norm_num)]
    decide
  have h0 : jsRound (0 : ℚ) = 0 := by
    rw [jsRound_eval _ 1 2 (by norm_num)]
    decide
  rw [if_neg (by decide), if_neg (by decide)]
  norm_num [Row.total, h100, h0]

/-- Amended claim C10: the matrix operations fail on an UNKNOWN state
only where the absent `'UNKNOWN'` row is actually read:
`buildTransitionMatrix` throws exactly when the log has ≥ 2 rounds and
some round *other than the last* has `state2 = UNKNOWN` (those are the
transition sources), and `getStateTransitionProbability` with
`fromState = UNKNOWN` throws whenever the matrix is non-null, instead of
returning the null sentinel.  An UNKNOWN state confined to a round's
`state1` or to the last round's `state2` does not make the operations
fail. -/
theorem c10_amended (games : List Game) : C10Concl games := by
  constructor
  · exact build_error_iff games
  · intro m hb
    exact gstp_unknown_error hb

/-- Witness for C10 (amended): on a concrete valid 2-round log the
matrix is non-null and the UNKNOWN-row lookup throws, via
`c10_amended`. -/
theorem c10_witness :
    getStateTransitionProbability [⟨10, 10⟩, ⟨10, 10⟩] GState.UNKNOWN = .error () :=
  (c10_amended [⟨10, 10⟩, ⟨10, 10⟩]).2 ⟨⟨1, 0, 0, 0, false⟩, zeroRow, zeroRow, zeroRow⟩ rfl

/-- Claim C4: `getStateTransitionProbability(fromState)` returns `null`
when the matrix is `null` (log shorter than 2) or when the row total for
`fromState` is 0; otherwise each destination cell is
`round(100 * count / rowTotal)` rounded independently, so a row's
percentages need not sum to 100 — counts {1,1,1} yield 33/33/33 summing
to 99 — and no correction is applied. -/
theorem c4_transitionProbability (games : List Game) (fromState : GState) :
    (games.length < 2 → getStateTransitionProbability games fromState = .ok none)
    ∧ (2 ≤ games.length → ValidLog games → fromState ≠ .UNKNOWN → C4Concl games fromState)
    ∧ (∃ p, getStateTransitionProbability [⟨10, 10⟩, ⟨10, 10⟩, ⟨20, 10⟩, ⟨35, 10⟩] GState.LOW
          = .ok (some p) ∧ p.pLOW + p.pMID + p.pHIGH + p.pEXTREME = 99) := by
  refine ⟨fun h => gstp_short h fromState, ?_, ?_⟩
  · intro h2 hv hs
    constructor
    · exact (gstp_of_valid h2 hv hs).1
    · intro ht
      refine ⟨_, (gstp_of_valid h2 hv hs).2 ht, ?_⟩
      intro b hb
      cases b with
      | UNKNOWN => exact absurd rfl hb
      | LOW => rfl
      | MID => rfl
      | HIGH => rfl
      | EXTREME => rfl
  · have hb4 : buildTransitionMatrix [⟨10, 10⟩, ⟨10, 10⟩, ⟨20, 10⟩, ⟨35, 10⟩] =
        .ok (some ⟨⟨1, 1, 1, 0, false⟩, zeroRow, zeroRow, zeroRow⟩) := rfl
    have hr4 : TransitionMatrix.rowOf ⟨⟨1, 1, 1, 0, false⟩, zeroRow, zeroRow, zeroRow⟩ GState.LOW
        = some ⟨1, 1, 1, 0, false⟩ := rfl
    rw [gstp_eq_of_build hb4 hr4, if_neg (by decide), if_neg (by decide)]
    refine ⟨_, rfl, ?_⟩
    have h33 : jsRound ((100 : ℚ) / 3) = 33 := by
      rw [jsRound_eval _ 203 6 (by norm_num)]
      decide
    have h0 : jsRound (0 : ℚ) = 0 := by
      rw [jsRound_eval _ 1 2 (by norm_num)]
      decide
    norm_num [Row.total, h33, h0]

/-- Witness for C4: the spec's example row {LOW:1, MID:3} (via
`c4_transitionProbability` on a log whose pairs from LOW are one LOW
and three MID destinations). -/
theorem c4_witness :
    2 ≤ ([⟨10, 10⟩, ⟨10, 10⟩, ⟨20, 10⟩, ⟨20, 10⟩, ⟨20, 35⟩] : List Game).length
    ∧ ValidLog [⟨10, 10⟩, ⟨10, 10⟩, ⟨20, 10⟩, ⟨20, 10⟩, ⟨20, 35⟩]
    ∧ GState.LOW ≠ GState.UNKNOWN
    ∧ C4Concl [⟨10, 10⟩, ⟨10, 10⟩, ⟨20, 10⟩, ⟨20, 10⟩, ⟨20, 35⟩] GState.LOW :=
  ⟨by decide, by decide, by decide,
   (c4_transitionProbability _ _).2.1 (by decide) (by decide) (by decide)⟩

lemma pairCount_cons₂ (g0 g1 : Game) (t : List Game) (a b : GState) :
    pairCount (g0 :: g1 :: t) a b
      = (if g0.state2 = a ∧ g1.state1 = b then 1 else 0) + pairCount (g1 :: t) a b := by
  unfold pairCount
  rw [show (g0 :: g1 :: t).tail = g1 :: t from rfl, show (g1 :: t).tail = t from rfl,
    List.zip_cons_cons, List.countP_cons]
  simp only [Bool.and_eq_true, decide_eq_true_eq]
  split_ifs <;> omega

/-- Claim C5: the window aggregators (trend aggregation, classification
frequency, state dominance) operate on exactly the last
`min(20, length)` rounds in original order, while the transition matrix
and the `roll2` average are computed over the entire log: on a 21-round
log the oldest round is excluded from every window aggregate, but its
transition still enters the matrix and its `roll2` the average. -/
theorem c5_window_vs_fullLog (g0 g1 : Game) (t : List Game) (ht : t.length = 19) :
    C5Concl g0 g1 t := by
  have hlen : (g0 :: g1 :: t).length = 21 := by simp [ht]
  have hwin : getRecentGames (g0 :: g1 :: t) = g1 :: t := by
    unfold getRecentGames getRecentGamesN maxMemoryWindow
    rw [hlen]
    rfl
  refine ⟨?_, hwin, ?_, ?_, ?_, ?_, ?_⟩
  · intro l
    unfold getRecentGames getRecentGamesN maxMemoryWindow
    rw [List.length_drop]
    omega
  · unfold analyzeTrendDirection
    rw [if_neg (by simp), hwin]
  · unfold getClassificationFrequency
    rw [if_neg (by simp), hwin]
  · unfold getStateDominance
    rw [if_neg (by simp), hwin]
  · unfold avgRoll2Of
    rw [hlen]
    push_cast [List.map_cons, List.sum_cons]
    ring
  · intro hv
    have h2a : 2 ≤ (g0 :: g1 :: t).length := by simp
    have h2b : 2 ≤ (g1 :: t).length := by simp [ht]
    have hvtail : ValidLog (g1 :: t) := fun g hg => hv g (List.mem_cons_of_mem g0 hg)
    obtain ⟨m, hbm, hcm, -⟩ := build_ok_of_valid h2a hv
    obtain ⟨m', hbm', hcm', -⟩ := build_ok_of_valid h2b hvtail
    refine ⟨m, m', hbm, hbm', ?_⟩
    intro a b ha hb
    rw [hcm a b ha hb, hcm' a b ha hb, pairCount_cons₂]

/-- Witness for C5: a concrete 21-round valid log, via
`c5_window_vs_fullLog`. -/
theorem c5_witness :
    (List.replicate 19 (⟨10, 40⟩ : Game)).length = 19
    ∧ ValidLog (⟨12, 35⟩ :: ⟨10, 40⟩ :: List.replicate 19 (⟨10, 40⟩ : Game))
    ∧ C5Concl ⟨12, 35⟩ ⟨10, 40⟩ (List.replicate 19 (⟨10, 40⟩ : Game)) :=
  ⟨by decide, by decide, c5_window_vs_fullLog _ _ _ (by decide)⟩

lemma roll2_sum_bounds : ∀ games : List Game, ValidLog games →
    6 * (games.length : ℤ) ≤ (games.map fun g => g.roll2).sum
    ∧ (games.map fun g => g.roll2).sum ≤ 54 * (games.length : ℤ) := by
  intro games
  induction games with
  | nil => intro _; simp
  | cons g rest ih =>
    intro hv
    have hg := hv g (List.mem_cons_self g rest)
    have hrest := ih (fun q hq => hv q (List.mem_cons_of_mem g hq))
    simp only [List.map_cons, List.sum_cons, List.length_cons]
    push_cast
    constructor <;> linarith [hg.2.1, hg.2.2, hrest.1, hrest.2]

lemma avg_bounds {games : List Game} (hv : ValidLog games) (hne : games.length ≠ 0) :
    6 ≤ avgRoll2Of games ∧ avgRoll2Of games ≤ 54 := by
  obtain ⟨hl, hu⟩ := roll2_sum_bounds games hv
  unfold avgRoll2Of
  have hn : (0 : ℚ) < (games.length : ℚ) := by
    exact_mod_cast Nat.pos_of_ne_zero hne
  constructor
  · rw [le_div_iff₀ hn]
    exact_mod_cast hl
  · rw [div_le_iff₀ hn]
    exact_mod_cast hu

lemma centerTerm_nonneg {avg : ℚ} (h6 : 6 ≤ avg) (h54 : avg ≤ 54) :
    (0 : ℚ) ≤ 0.20 * (1 - |avg - 30| / 24) := by
  have habs : |avg - 30| ≤ 24 := abs_le.mpr ⟨by linarith, by linarith⟩
  have hd : |avg - 30| / 24 ≤ 1 := (div_le_one (by norm_num)).mpr habs
  have : (0 : ℚ) ≤ 1 - |avg - 30| / 24 := by linarith
  have h2 : (0 : ℚ) ≤ 0.20 := by norm_num
  exact mul_nonneg h2 this

lemma predictScores_sum_ge {games : List Game} {stp : Option Probs}
    (hstp : ∀ p, stp = some p → ∀ b, 0 ≤ p.get b)
    (h6 : 6 ≤ avgRoll2Of games) (h54 : avgRoll2Of games ≤ 54) :
    3 / 20 ≤ (predictScores games stp).1 + (predictScores games stp).2 := by
  simp only [predictScores]
  have hct := centerTerm_nonneg h6 h54
  set sd := (getStateDominance games).getD ⟨0, 0, 0, 0, false⟩ with hsd
  have hA : (0 : ℚ) ≤ ((sd.LOW + sd.MID : ℕ) : ℚ) / ((sd.LOW + sd.MID + sd.HIGH + sd.EXTREME : ℕ) : ℚ) :=
    div_nonneg (Nat.cast_nonneg _) (Nat.cast_nonneg _)
  have hB : (0 : ℚ) ≤ ((sd.HIGH + sd.EXTREME : ℕ) : ℚ) / ((sd.LOW + sd.MID + sd.HIGH + sd.EXTREME : ℕ) : ℚ) :=
    div_nonneg (Nat.cast_nonneg _) (Nat.cast_nonneg _)
  cases stp with
  | none =>
    split_ifs <;> linarith [hct, hA, hB]
  | some p =>
    have hpl : (0 : ℚ) ≤ ((p.get .LOW : ℤ) : ℚ) := by exact_mod_cast hstp p rfl .LOW
    have hpm : (0 : ℚ) ≤ ((p.get .MID : ℤ) : ℚ) := by exact_mod_cast hstp p rfl .MID
    have hph : (0 : ℚ) ≤ ((p.get .HIGH : ℤ) : ℚ) := by exact_mod_cast hstp p rfl .HIGH
    have hpe : (0 : ℚ) ≤ ((p.get .EXTREME : ℤ) : ℚ) := by exact_mod_cast hstp p rfl .EXTREME
    split_ifs <;> linarith [hct, hA, hB, hpl, hpm, hph, hpe]

/-- Claim C1: `predictNextOutcome` returns the cannot-predict sentinel
(`canPredict:false`) for every log of length less than 5, and for every
(valid) log of length at least 5 it returns `canPredict:true` with a
KECIL/BESAR percent split summing to exactly 100, because `besarPercent`
is `100 - kecilPercent` rather than rounded independently. -/
theorem c1_predictNextOutcome (games : List Game) :
    (games.length < 5 →
      predictNextOutcome games = .ok (.cannotPredict "Data belum cukup (minimal 5 game)"))
    ∧ (5 ≤ games.length → ValidLog games → C1Concl games) := by
  constructor
  · intro h
    unfold predictNextOutcome
    rw [if_pos h]
  · intro h5 hv
    have hne : games ≠ [] := by
      intro h
      rw [h] at h5
      simp at h5
    have hs := getLastState_getD_ne_unknown hv hne
    obtain ⟨o, ho⟩ := gstp_ok_of_valid hv hs
    have heq : predictNextOutcome games = .ok (.predicted
        (jsRound ((predictScores games o).1 /
          ((predictScores games o).1 + (predictScores games o).2) * 100))
        (100 - jsRound ((predictScores games o).1 /
          ((predictScores games o).1 + (predictScores games o).2) * 100))
        ⟨(analyzeTrendDirection games).getD ⟨0, 0, 0⟩,
         (getStateDominance games).getD ⟨0, 0, 0, 0, false⟩,
         (getLastState games).getD .UNKNOWN, o,
         ((jsRound (avgRoll2Of games * 10) : ℤ) : ℚ) / 10⟩) := by
      have hlt : ¬ games.length < 5 := by omega
      simp only [predictNextOutcome, hlt, if_false, ho]
    exact ⟨_, _, _, heq, by omega⟩

/-- Witness for C1: the empty log cannot predict; a concrete valid
5-round log predicts with a split summing to 100, via
`c1_predictNextOutcome`. -/
theorem c1_witness :
    predictNextOutcome [] = .ok (.cannotPredict "Data belum cukup (minimal 5 game)")
    ∧ 5 ≤ ([⟨10, 12⟩, ⟨20, 35⟩, ⟨33, 40⟩, ⟨40, 22⟩, ⟨22, 30⟩] : List Game).length
    ∧ ValidLog [⟨10, 12⟩, ⟨20, 35⟩, ⟨33, 40⟩, ⟨40, 22⟩, ⟨22, 30⟩]
    ∧ C1Concl [⟨10, 12⟩, ⟨20, 35⟩, ⟨33, 40⟩, ⟨40, 22⟩, ⟨22, 30⟩] :=
  ⟨(c1_predictNextOutcome []).1 (by decide), by decide, by decide,
   (c1_predictNextOutcome _).2 (by decide) (by decide)⟩

/-- Claim C2: for every (valid) log of at least 5 rounds the
normalization divisor `kecilScore + besarScore` of `predictNextOutcome`
is strictly positive — the trend component unconditionally adds
`0.25 * 0.6` to one side and no component contributes a negative amount
when `avgRoll2` lies in `[6,54]` — so the zero-total-score division is
unreachable and the prediction is well-defined. -/
theorem c2_totalScore_pos (games : List Game) (h5 : 5 ≤ games.length) (hv : ValidLog games) :
    C2Concl games := by
  have hne : games ≠ [] := by
    intro h
    rw [h] at h5
    simp at h5
  have hs := getLastState_getD_ne_unknown hv hne
  obtain ⟨o, ho⟩ := gstp_ok_of_valid hv hs
  refine ⟨o, ho, ?_⟩
  have hnz : games.length ≠ 0 := by omega
  obtain ⟨h6, h54⟩ := avg_bounds hv hnz
  have hstp : ∀ p, o = some p → ∀ b, 0 ≤ p.get b := by
    intro p hp b
    rw [hp] at ho
    exact gstp_get_nonneg ho b
  have hsum := predictScores_sum_ge hstp h6 h54
  linarith

/-- Witness for C2: a concrete valid 5-round log, via
`c2_totalScore_pos`. -/
theorem c2_witness :
    5 ≤ ([⟨12, 14⟩, ⟨25, 30⟩, ⟨35, 45⟩, ⟨45, 12⟩, ⟨14, 28⟩] : List Game).length
    ∧ ValidLog [⟨12, 14⟩, ⟨25, 30⟩, ⟨35, 45⟩, ⟨45, 12⟩, ⟨14, 28⟩]
    ∧ C2Concl [⟨12, 14⟩, ⟨25, 30⟩, ⟨35, 45⟩, ⟨45, 12⟩, ⟨14, 28⟩] :=
  ⟨by decide, by decide, c2_totalScore_pos _ (by decide) (by decide)⟩

end Dice
